import Mathlib

/-!
Verification of the streaming ZIP archive writer (`src/zip.rs`).

The embedding models bytes as `Nat` values below 256, byte buffers as
`List Nat`, the seekable output sink as a byte list together with a write
position, and the CRC-32 (ISO-HDLC) digest of the `crc` crate as a fold over
the bytes fed to it.  All definitions are translated from the Rust source;
definitions whose name starts with `spec` are instead written from the
specification's words, for refinement comparisons.
-/

set_option maxRecDepth 100000

namespace Zip

/-! ### Constants (from the top of `zip.rs`) -/

def LOCAL_FILE_HEADER_SIGNATURE : List Nat := [0x50, 0x4b, 0x03, 0x04]

def CENTRAL_FILE_HEADER_SIGNATURE : List Nat := [0x50, 0x4b, 0x01, 0x02]

def EOF_CENTRAL_FILE_HEADER_SIGNATURE : List Nat := [0x50, 0x4b, 0x05, 0x06]

def VERSION_NEED_TO_EXTRACT_DEFAULT : List Nat := [0x00, 0x00]

def VERSION_MADE_BY : List Nat := [0x00, 0x3f]

def GENERAL_PURPOSE_BIT_FLAG : List Nat := [0x00, 0x00]

def COMPRESSION_METHOD_STORE : List Nat := [0x00, 0x00]

def LENGTH_ZERO : List Nat := [0x00, 0x00]

def INTERNAL_FILE_ATTRS : List Nat := [0x10, 0x00]

def EXTERNAL_FILE_ATTRS : List Nat := [0x00, 0x00, 0x00, 0x00]

def UNICODE_PATH_EXTRA_FIELD : List Nat := [0x75, 0x70]

def UNICODE_PATH_VERSION : List Nat := [0x01]

/-! ### CRC-32 with the ISO-HDLC polynomial

The `crc` crate's `CRC_32_ISO_HDLC` algorithm: width 32, reflected input and
output, initial value `0xFFFFFFFF`, final xor `0xFFFFFFFF`.  In its reflected
table-free form each input byte is xored into the low byte of the register and
followed by eight shift-and-conditionally-xor rounds with the reflected
polynomial `0xEDB88320`. -/

def crc32Round (r : Nat) : Nat :=
  if r % 2 = 1 then (r / 2) ^^^ 0xEDB88320 else r / 2

def crc32Rounds : Nat → Nat → Nat
  | 0, r => r
  | n + 1, r => crc32Rounds n (crc32Round r)

/-- `Digest::update` for a single byte. -/
def crc32UpdateByte (c b : Nat) : Nat := crc32Rounds 8 (c ^^^ b)

/-- `Digest::update` over a byte buffer: the digest register after feeding
`bs` into a register currently holding `c`. -/
def crc32Update (c : Nat) (bs : List Nat) : Nat := bs.foldl crc32UpdateByte c

/-- The full checksum of a byte sequence: fresh digest (`CRC32.digest()`),
update with all the bytes, `finalize()`. -/
def crc32 (bs : List Nat) : Nat := crc32Update 0xFFFFFFFF bs ^^^ 0xFFFFFFFF

/-! ### Little-endian integer encodings

`(x as u16).to_le_bytes()` and `(x as u32).to_le_bytes()`: each byte is a
base-256 digit, so the cast's truncation is absorbed by the digit extraction. -/

def u16le (n : Nat) : List Nat := [n % 256, n / 256 % 256]

def u32le (n : Nat) : List Nat :=
  [n % 256, n / 256 % 256, n / 2 ^ 16 % 256, n / 2 ^ 24 % 256]

/-! ### Data model -/

/-- `struct FileEntry` — `filename` is the UTF-8 byte content of the boxed
string. -/
structure FileEntry where
  offset : Nat
  filename : List Nat
  size : Nat
  crc32 : Nat
deriving DecidableEq, Repr

/-- `enum FileHeader`. -/
inductive FileHeader where
  | Local
  | Central
deriving DecidableEq, Repr

def FileHeader.signature : FileHeader → List Nat
  | .Local => LOCAL_FILE_HEADER_SIGNATURE
  | .Central => CENTRAL_FILE_HEADER_SIGNATURE

/-- `Utf8PathField::into_bytes`: tag, `(path.len() + 5) as u16` little-endian,
version byte, CRC-32 of the path bytes little-endian, then the path bytes. -/
def Utf8PathField.into_bytes (path : List Nat) : List Nat :=
  UNICODE_PATH_EXTRA_FIELD
    ++ u16le (path.length + 5)
    ++ UNICODE_PATH_VERSION
    ++ u32le (crc32 path)
    ++ path

/-- `FileEntry::write_header`: the exact byte sequence the Rust method writes
for the given header kind.  The Rust method returns the number of bytes
written, which in this embedding is the length of the returned list.  The
`as u32` / `as u16` casts on `size`, `offset` and the lengths are absorbed by
the base-256 digit extraction in `u32le` / `u16le`. -/
def FileEntry.write_header (e : FileEntry) (h : FileHeader) : List Nat :=
  h.signature
    ++ (if h = .Central then VERSION_MADE_BY else [])
    ++ VERSION_NEED_TO_EXTRACT_DEFAULT
    ++ GENERAL_PURPOSE_BIT_FLAG
    ++ COMPRESSION_METHOD_STORE
    ++ [0x00, 0x00, 0x00, 0x00]
    ++ u32le e.crc32
    ++ u32le e.size
    ++ u32le e.size
    ++ u16le e.filename.length
    ++ u16le (Utf8PathField.into_bytes e.filename).length
    ++ (if h = .Central then
          LENGTH_ZERO ++ LENGTH_ZERO ++ INTERNAL_FILE_ATTRS ++ EXTERNAL_FILE_ATTRS
            ++ u32le e.offset
        else [])
    ++ e.filename
    ++ Utf8PathField.into_bytes e.filename

/-! ### The seekable sink

`W : Write + Seek` is modelled as the byte list written so far together with
the current write position.  `write_all` overwrites from the position (the
writer is only ever rewound into already-written bytes) and advances it;
`seek(SeekFrom::Start(p))` sets the position. -/

structure ByteSink where
  data : List Nat
  pos : Nat
deriving DecidableEq, Repr

def ByteSink.write_all (s : ByteSink) (buf : List Nat) : ByteSink :=
  ⟨s.data.take s.pos ++ buf ++ s.data.drop (s.pos + buf.length), s.pos + buf.length⟩

def ByteSink.seek (s : ByteSink) (p : Nat) : ByteSink := ⟨s.data, p⟩

/-! ### Content sources and `io::copy`

A `Read` content source is modelled by the list of chunks its successive
successful reads return, followed by the outcome of the next read: `none` for
end of stream, `some e` for an I/O error `e`.  `io::copy` reads chunks and
writes each one to the sink until a read returns 0 bytes (an empty chunk) or
fails.  Together with the `Crc32Reader` wrapper the digest receives exactly
the bytes each read returned, so the model also yields the list of bytes read
(third component) alongside the sink, the byte count, and the error, if any. -/

structure ContentSource (ε : Type) where
  chunks : List (List Nat)
  err : Option ε
deriving Repr

def io_copy {ε : Type} (w : ByteSink) :
    List (List Nat) → Option ε → ByteSink × Nat × List Nat × Option ε
  | [], none => (w, 0, [], none)
  | [], some e => (w, 0, [], some e)
  | c :: rest, err =>
    if c = [] then (w, 0, [], none)
    else
      let r := io_copy (w.write_all c) rest err
      (r.1, c.length + r.2.1, c ++ r.2.2.1, r.2.2.2)

/-! ### The archive writer -/

/-- `struct ZipWriter<W>`. -/
structure ZipWriter where
  writer : ByteSink
  files : List FileEntry
  cursor : Nat
deriving DecidableEq, Repr

/-- `ZipWriter::new`. -/
def ZipWriter.new (w : ByteSink) : ZipWriter := ⟨w, [], 0⟩

/-- `ZipWriter::write_file`.  Mirrors the Rust method line by line: create the
entry with the current cursor as offset and zero size/checksum, write the
local header, advance the cursor by its length, stream-copy the content
through the `Crc32Reader` wrapper (the digest accumulates exactly the bytes
read, so on success the checksum is `crc32` of them), advance the cursor by
the copied size, seek back to the entry offset, rewrite the local header with
the true size and checksum, seek forward to the cursor, and push the entry.
On a content read error the `?` operator returns it after the cursor was
already advanced by the header length, with no entry pushed. -/
def ZipWriter.write_file {ε : Type} (z : ZipWriter) (filename : List Nat)
    (content : ContentSource ε) : ZipWriter × Option ε :=
  let file := FileEntry.mk z.cursor filename 0 0
  let hdr := file.write_header .Local
  let w1 := z.writer.write_all hdr
  let cursor1 := z.cursor + hdr.length
  match io_copy w1 content.chunks content.err with
  | (w2, _, _, some e) => ({ writer := w2, files := z.files, cursor := cursor1 }, some e)
  | (w2, size, bytesRead, none) =>
    let file := { file with size := size, crc32 := crc32 bytesRead }
    let cursor2 := cursor1 + size
    let w3 := (w2.seek file.offset).write_all (file.write_header .Local)
    let w4 := w3.seek cursor2
    ({ writer := w4, files := z.files ++ [file], cursor := cursor2 }, none)

/-- `ZipWriter::close`: write one central directory header per entry in
insertion order, accumulating the byte count, then the end-of-central-
directory record.  `files.len().to_le() as u16` truncates the entry count to
16 bits; `len as u32` and `cursor as u32` truncate to 32 bits — all absorbed
by `u16le` / `u32le`. -/
def ZipWriter.close (z : ZipWriter) : ByteSink :=
  let entries_len := u16le z.files.length
  let step := fun (acc : ByteSink × Nat) (f : FileEntry) =>
    let hdr := f.write_header .Central
    (acc.1.write_all hdr, acc.2 + hdr.length)
  let r := z.files.foldl step (z.writer, 0)
  ((((((((r.1.write_all EOF_CENTRAL_FILE_HEADER_SIGNATURE).write_all
    LENGTH_ZERO).write_all
    (u16le 1)).write_all
    entries_len).write_all
    entries_len).write_all
    (u32le r.2)).write_all
    (u32le z.cursor)).write_all
    LENGTH_ZERO)

/-! ### The checksum accumulator (`Crc32Reader`)

The wrapped source is abstract: a state type `σ` and a step function that,
given the state and the caller's buffer, either fails with an error or
returns the number of bytes read, the buffer's new content, and the new
state.  The digest field holds the CRC register. -/

structure Crc32Reader (σ : Type) where
  internal : σ
  digest : Nat
deriving Repr

/-- `Crc32Reader::new`: a fresh digest register (`CRC32.digest()`). -/
def Crc32Reader.new {σ : Type} (s : σ) : Crc32Reader σ := ⟨s, 0xFFFFFFFF⟩

/-- `Crc32Reader::sum32`: finalize the digest. -/
def Crc32Reader.sum32 {σ : Type} (r : Crc32Reader σ) : Nat := r.digest ^^^ 0xFFFFFFFF

/-- `<Crc32Reader as Read>::read`: delegate to the inner source's read; on
error propagate it unchanged (`?`); on success feed exactly the first `len`
bytes of the buffer (`&buf[..len]`) into the digest and return the same
length and buffer. -/
def Crc32Reader.read {σ ε : Type}
    (readFn : σ → List Nat → Except ε (Nat × List Nat × σ))
    (r : Crc32Reader σ) (buf : List Nat) :
    Except ε (Nat × List Nat × Crc32Reader σ) :=
  match readFn r.internal buf with
  | .error e => .error e
  | .ok (len, buf2, s2) => .ok (len, buf2, ⟨s2, crc32Update r.digest (buf2.take len)⟩)


/-! ### Derived and specification-side definitions -/

/-- The entry `write_file` commits for a content stream whose reads return
exactly the chunks of `c` and then end of stream. -/
def committedEntry (z : ZipWriter) (fn : List Nat) {ε : Type} (c : ContentSource ε) :
    FileEntry :=
  FileEntry.mk z.cursor fn c.chunks.flatten.length (crc32 c.chunks.flatten)

/-- The central directory bytes written by `close`. -/
def centralDirectory (files : List FileEntry) : List Nat :=
  (files.map (fun f => f.write_header .Central)).flatten

/-- The end-of-central-directory record `close` writes, as a function of the
entry count, the directory byte count, and the cursor at close time. -/
def endRecord (count len cursor : Nat) : List Nat :=
  EOF_CENTRAL_FILE_HEADER_SIGNATURE ++ LENGTH_ZERO ++ u16le 1
    ++ u16le count ++ u16le count ++ u32le len ++ u32le cursor ++ LENGTH_ZERO

/-- The UTF-8 path extra field as the specification words it: a 2-byte tag
`75 70`, a 2-byte little-endian record length `L + 5`, a 1-byte version
constant `01`, a 4-byte little-endian CRC-32 of the path's raw UTF-8 bytes,
followed by the `L` raw UTF-8 bytes.  Written from the spec, for comparison
against `Utf8PathField.into_bytes`. -/
def specUtf8PathRecord (path : List Nat) : List Nat :=
  [0x75, 0x70] ++ u16le (path.length + 5) ++ [0x01] ++ u32le (crc32 path) ++ path

/-- The local header field sequence as the specification and claim C3 list
it: signature `50 4B 03 04`, version needed (constant), general-purpose
flags zero, compression method store, time and date zero, CRC-32, compressed
and uncompressed size both the entry's size, path length, extra-field length
(`L + 9`), then the path bytes and the extra field bytes.  Written from the
spec, for comparison against `FileEntry.write_header`. -/
def specLocalHeader (e : FileEntry) : List Nat :=
  [0x50, 0x4b, 0x03, 0x04]
    ++ VERSION_NEED_TO_EXTRACT_DEFAULT
    ++ [0x00, 0x00]
    ++ [0x00, 0x00]
    ++ [0x00, 0x00, 0x00, 0x00]
    ++ u32le e.crc32
    ++ u32le e.size
    ++ u32le e.size
    ++ u16le e.filename.length
    ++ u16le (e.filename.length + 9)
    ++ e.filename
    ++ specUtf8PathRecord e.filename

/-- The directory (central) header field sequence as the specification and
claim C3 list it: signature `50 4B 01 02`, version made by, the same shared
fields as the local kind, then comment length zero, disk number zero, the
internal/external attribute constants, the 32-bit local-header offset, and
the path and extra-field bytes.  Written from the spec, for comparison
against `FileEntry.write_header`. -/
def specCentralHeader (e : FileEntry) : List Nat :=
  [0x50, 0x4b, 0x01, 0x02]
    ++ VERSION_MADE_BY
    ++ VERSION_NEED_TO_EXTRACT_DEFAULT
    ++ [0x00, 0x00]
    ++ [0x00, 0x00]
    ++ [0x00, 0x00, 0x00, 0x00]
    ++ u32le e.crc32
    ++ u32le e.size
    ++ u32le e.size
    ++ u16le e.filename.length
    ++ u16le (e.filename.length + 9)
    ++ [0x00, 0x00]
    ++ [0x00, 0x00]
    ++ INTERNAL_FILE_ATTRS
    ++ EXTERNAL_FILE_ATTRS
    ++ u32le e.offset
    ++ e.filename
    ++ specUtf8PathRecord e.filename

/-- Remove the directory-only fields from a central header's byte sequence:
version made by (bytes 4..6) and the comment length / disk number /
attributes / offset block (bytes 32..46).  Used to formalise "byte-for-byte
identical apart from the extra directory-only fields". -/
def stripCentralOnly (bs : List Nat) : List Nat :=
  bs.take 4 ++ (bs.drop 6).take 26 ++ bs.drop 46

end Zip

/-! ## Supporting lemmas -/

namespace Zip

/-- Sanity check for the CRC-32 model: the ISO-HDLC check value over the ASCII
bytes of "123456789" is `0xCBF43926`. -/
theorem crc32_check_value :
    crc32 [0x31, 0x32, 0x33, 0x34, 0x35, 0x36, 0x37, 0x38, 0x39] = 0xCBF43926 := by
  decide

theorem length_u16le (n : Nat) : (u16le n).length = 2 := rfl

theorem length_u32le (n : Nat) : (u32le n).length = 4 := rfl

theorem u16le_mod (n : Nat) : u16le n = u16le (n % 2 ^ 16) := by
  simp only [u16le, List.cons.injEq, and_true]
  constructor <;> omega

theorem u32le_mod (n : Nat) : u32le n = u32le (n % 2 ^ 32) := by
  simp only [u32le, List.cons.injEq, and_true]
  refine ⟨?_, ?_, ?_, ?_⟩ <;> omega

theorem length_into_bytes (p : List Nat) :
    (Utf8PathField.into_bytes p).length = p.length + 9 := by
  simp [Utf8PathField.into_bytes, UNICODE_PATH_EXTRA_FIELD, UNICODE_PATH_VERSION,
    u16le, u32le]

/-- `into_bytes` and the spec's wording of the extra field coincide. -/
theorem into_bytes_eq_specRecord (p : List Nat) :
    Utf8PathField.into_bytes p = specUtf8PathRecord p := rfl

theorem length_specRecord (p : List Nat) :
    (specUtf8PathRecord p).length = p.length + 9 := by
  rw [← into_bytes_eq_specRecord]
  exact length_into_bytes p

theorem length_write_header_Local (e : FileEntry) :
    (e.write_header .Local).length = 30 + e.filename.length + (e.filename.length + 9) := by
  simp [FileEntry.write_header, FileHeader.signature, LOCAL_FILE_HEADER_SIGNATURE,
    VERSION_NEED_TO_EXTRACT_DEFAULT, GENERAL_PURPOSE_BIT_FLAG, COMPRESSION_METHOD_STORE,
    u16le, u32le, length_into_bytes]
  omega

theorem length_write_header_Central (e : FileEntry) :
    (e.write_header .Central).length = 46 + e.filename.length + (e.filename.length + 9) := by
  simp [FileEntry.write_header, FileHeader.signature, CENTRAL_FILE_HEADER_SIGNATURE,
    VERSION_MADE_BY, VERSION_NEED_TO_EXTRACT_DEFAULT, GENERAL_PURPOSE_BIT_FLAG,
    COMPRESSION_METHOD_STORE, LENGTH_ZERO, INTERNAL_FILE_ATTRS, EXTERNAL_FILE_ATTRS,
    u16le, u32le, length_into_bytes]
  omega

theorem crc32Update_append (c : Nat) (a b : List Nat) :
    crc32Update (crc32Update c a) b = crc32Update c (a ++ b) := by
  simp [crc32Update, List.foldl_append]

/-- Writing at the current end of the sink appends. -/
theorem write_all_aligned (s : ByteSink) (b : List Nat) (h : s.pos = s.data.length) :
    s.write_all b = ⟨s.data ++ b, (s.data ++ b).length⟩ := by
  simp [ByteSink.write_all, h, List.take_length,
    List.drop_eq_nil_of_le (Nat.le_add_right _ _)]

/-- Unconditional form of `write_all_aligned` for end-aligned sink literals. -/
theorem write_all_end (d b : List Nat) :
    (ByteSink.mk d d.length).write_all b = ⟨d ++ b, (d ++ b).length⟩ :=
  write_all_aligned ⟨d, d.length⟩ b rfl

/-- Folding `write_all` over chunks from an end-aligned sink appends their
concatenation. -/
theorem foldl_write_all_aligned (chunks : List (List Nat)) :
    ∀ s : ByteSink, s.pos = s.data.length →
      chunks.foldl ByteSink.write_all s
        = ⟨s.data ++ chunks.flatten, (s.data ++ chunks.flatten).length⟩ := by
  induction chunks with
  | nil =>
    intro s h
    cases s
    simp_all
  | cons c rest ih =>
    intro s h
    rw [List.foldl_cons, write_all_aligned s c h,
      ih ⟨s.data ++ c, (s.data ++ c).length⟩ rfl]
    simp [List.flatten_cons]

/-- Rewriting a same-length buffer at an interior offset replaces exactly
that range. -/
theorem write_all_patch (d h0 t h1 : List Nat) (p : Nat) (hlen : h1.length = h0.length) :
    ((ByteSink.mk (d ++ (h0 ++ t)) p).seek d.length).write_all h1
      = ⟨d ++ (h1 ++ t), d.length + h1.length⟩ := by
  simp only [ByteSink.seek, ByteSink.write_all]
  congr 1
  rw [List.take_left]
  have hd : List.drop (d.length + h1.length) (d ++ (h0 ++ t)) = t := by
    rw [← List.append_assoc]
    exact List.drop_left' (by simp [hlen])
  rw [hd, List.append_assoc]

/-- `write_all_patch` with the seek target given by an equation, for use with
`rw`. -/
theorem write_all_patch' (d h0 t h1 : List Nat) (p q : Nat) (hq : q = d.length)
    (hlen : h1.length = h0.length) :
    ((ByteSink.mk (d ++ (h0 ++ t)) p).seek q).write_all h1
      = ⟨d ++ (h1 ++ t), d.length + h1.length⟩ := by
  rw [hq]
  exact write_all_patch d h0 t h1 p hlen

/-- Closed form of `io_copy` when no read returns zero bytes: every chunk is
written in order, the byte count is the total length, the bytes read are the
chunks' concatenation, and the final read outcome is returned as is. -/
theorem io_copy_eq {ε : Type} (chunks : List (List Nat)) (err : Option ε) :
    ∀ w : ByteSink, (∀ ch ∈ chunks, ch ≠ []) →
      io_copy w chunks err
        = (chunks.foldl ByteSink.write_all w, chunks.flatten.length, chunks.flatten, err) := by
  induction chunks with
  | nil =>
    intro w _
    cases err <;> simp [io_copy]
  | cons c rest ih =>
    intro w hne
    have hc : c ≠ [] := hne c (by simp)
    rw [io_copy]
    simp only [hc, if_false, ih (w.write_all c) (fun x hx => hne x (by simp [hx])),
      List.foldl_cons, List.flatten_cons]
    simp

/-- Closed form of a successful `write_file` call: no error is returned, the
committed entry (offset = old cursor, size and checksum from the streamed
bytes) is appended, the cursor advances by header length plus size, and the
sink goes through placeholder write, content copy, patch, seek forward. -/
theorem write_file_ok {ε : Type} (z : ZipWriter) (fn : List Nat) (c : ContentSource ε)
    (herr : c.err = none) (hne : ∀ ch ∈ c.chunks, ch ≠ []) :
    z.write_file fn c
      = (ZipWriter.mk
          (ByteSink.seek
            (ByteSink.write_all
              (ByteSink.seek
                (c.chunks.foldl ByteSink.write_all
                  (z.writer.write_all ((FileEntry.mk z.cursor fn 0 0).write_header
                    FileHeader.Local)))
                z.cursor)
              ((committedEntry z fn c).write_header FileHeader.Local))
            (z.cursor + ((FileEntry.mk z.cursor fn 0 0).write_header FileHeader.Local).length
              + c.chunks.flatten.length))
          (z.files ++ [committedEntry z fn c])
          (z.cursor + ((FileEntry.mk z.cursor fn 0 0).write_header FileHeader.Local).length
            + c.chunks.flatten.length), none) := by
  unfold ZipWriter.write_file
  dsimp only
  rw [herr, io_copy_eq c.chunks none _ hne]
  simp [committedEntry, Nat.add_assoc]

/-- A content read error is returned as is and no entry is appended; the
cursor stands after the placeholder header (the `?` fires after line 141's
cursor update), and the chunks read before the failure are in the sink. -/
theorem write_file_err {ε : Type} (z : ZipWriter) (fn : List Nat) (c : ContentSource ε)
    (e : ε) (herr : c.err = some e) (hne : ∀ ch ∈ c.chunks, ch ≠ []) :
    z.write_file fn c
      = (ZipWriter.mk
          (c.chunks.foldl ByteSink.write_all
            (z.writer.write_all ((FileEntry.mk z.cursor fn 0 0).write_header
              FileHeader.Local)))
          z.files
          (z.cursor + ((FileEntry.mk z.cursor fn 0 0).write_header FileHeader.Local).length),
         some e) := by
  unfold ZipWriter.write_file
  dsimp only
  rw [herr, io_copy_eq c.chunks (some e) _ hne]

/-- Closed form of the directory fold in `close`. -/
theorem close_fold (files : List FileEntry) :
    ∀ (w : ByteSink) (k : Nat), w.pos = w.data.length →
      files.foldl
        (fun acc f => (acc.1.write_all (f.write_header .Central),
          acc.2 + (f.write_header .Central).length)) (w, k)
        = (⟨w.data ++ centralDirectory files,
             (w.data ++ centralDirectory files).length⟩,
           k + (centralDirectory files).length) := by
  induction files with
  | nil =>
    intro w k h
    cases w
    simp_all [centralDirectory]
  | cons f rest ih =>
    intro w k h
    rw [List.foldl_cons, write_all_aligned w _ h,
      ih ⟨w.data ++ f.write_header .Central, (w.data ++ f.write_header .Central).length⟩
        (k + (f.write_header .Central).length) rfl]
    simp [centralDirectory, List.flatten_cons]
    omega

/-- Closed form of `close` from an end-aligned sink: the directory headers in
insertion order, then the end record whose directory-size field is the number
of directory bytes just written and whose directory-offset field is the
cursor at close time. -/
theorem close_eq (z : ZipWriter) (hpos : z.writer.pos = z.writer.data.length) :
    z.close
      = ⟨z.writer.data ++ centralDirectory z.files
           ++ endRecord z.files.length (centralDirectory z.files).length z.cursor,
         (z.writer.data ++ centralDirectory z.files
           ++ endRecord z.files.length (centralDirectory z.files).length z.cursor).length⟩ := by
  unfold ZipWriter.close
  dsimp only
  rw [close_fold z.files z.writer 0 hpos]
  dsimp only
  simp only [Nat.zero_add, write_all_end]
  simp [endRecord, List.append_assoc]

/-- The sink after a successful `write_file` from an end-aligned sink whose
cursor marks the data end: the patched local header (true size and checksum)
sits at the entry's offset, followed by the content bytes unchanged; the
position equals the new cursor. -/
theorem write_file_data {ε : Type} (z : ZipWriter) (fn : List Nat) (c : ContentSource ε)
    (herr : c.err = none) (hne : ∀ ch ∈ c.chunks, ch ≠ [])
    (hpos : z.writer.pos = z.writer.data.length)
    (hcur : z.cursor = z.writer.data.length) :
    (z.write_file fn c).1.writer
      = ⟨z.writer.data ++ (committedEntry z fn c).write_header .Local ++ c.chunks.flatten,
         z.cursor + ((FileEntry.mk z.cursor fn 0 0).write_header .Local).length
           + c.chunks.flatten.length⟩ := by
  have hlen : ((committedEntry z fn c).write_header .Local).length
      = ((FileEntry.mk z.cursor fn 0 0).write_header .Local).length := by
    simp [length_write_header_Local, committedEntry]
  rw [write_file_ok z fn c herr hne]
  dsimp only
  rw [write_all_aligned z.writer _ hpos,
    foldl_write_all_aligned c.chunks
      ⟨z.writer.data ++ (FileEntry.mk z.cursor fn 0 0).write_header .Local,
        (z.writer.data ++ (FileEntry.mk z.cursor fn 0 0).write_header .Local).length⟩ rfl]
  dsimp only
  rw [List.append_assoc,
    write_all_patch' z.writer.data ((FileEntry.mk z.cursor fn 0 0).write_header .Local)
      c.chunks.flatten ((committedEntry z fn c).write_header .Local) _ z.cursor hcur hlen]
  simp [ByteSink.seek, List.append_assoc]

/-- The CRC-32 field of a local header occupies bytes 14..18. -/
theorem crc_field_Local (e : FileEntry) :
    ((e.write_header .Local).drop 14).take 4 = u32le e.crc32 := rfl

/-- The CRC-32 field of a central header occupies bytes 16..20. -/
theorem crc_field_Central (e : FileEntry) :
    ((e.write_header .Central).drop 16).take 4 = u32le e.crc32 := rfl

end Zip

/-! ## Claim theorems -/

namespace Zip

/-- Claim C1: for every entry written through `write_file` with a content
source that yields a byte sequence without error, the checksum stored in the
resulting entry — and hence the CRC-32 field serialized into the patched
local header and the directory header — equals the ISO-HDLC CRC-32 computed
over exactly the content bytes, in order, in full. -/
theorem write_file_records_crc {ε : Type} (z : ZipWriter) (fn : List Nat)
    (c : ContentSource ε) (herr : c.err = none) (hne : ∀ ch ∈ c.chunks, ch ≠ []) :
    ∃ e : FileEntry,
      (z.write_file fn c).1.files = z.files ++ [e] ∧
      e.crc32 = crc32 c.chunks.flatten ∧
      ((e.write_header .Local).drop 14).take 4 = u32le (crc32 c.chunks.flatten) ∧
      ((e.write_header .Central).drop 16).take 4 = u32le (crc32 c.chunks.flatten) := by
  refine ⟨committedEntry z fn c, ?_, rfl,
    crc_field_Local (committedEntry z fn c), crc_field_Central (committedEntry z fn c)⟩
  rw [write_file_ok z fn c herr hne]

/-- Claim C2: a successful `write_file` call commits an entry whose offset is
the cursor at call start; the placeholder and patched local headers have the
same length, the entry's size is the number of content bytes copied, the
cursor ends at offset + header length + size (hence is monotone), the sink
holds the patched header at the offset followed by the content unchanged,
the sink position equals the cursor, and the entry is appended to the
sequence. -/
theorem write_file_steps {ε : Type} (z : ZipWriter) (fn : List Nat)
    (c : ContentSource ε) (herr : c.err = none) (hne : ∀ ch ∈ c.chunks, ch ≠ [])
    (hpos : z.writer.pos = z.writer.data.length)
    (hcur : z.cursor = z.writer.data.length) :
    ∃ e : FileEntry,
      (z.write_file fn c).2 = none ∧
      (z.write_file fn c).1.files = z.files ++ [e] ∧
      e.offset = z.cursor ∧
      e.filename = fn ∧
      e.size = c.chunks.flatten.length ∧
      e.crc32 = crc32 c.chunks.flatten ∧
      (e.write_header .Local).length
        = ((FileEntry.mk z.cursor fn 0 0).write_header .Local).length ∧
      (z.write_file fn c).1.cursor
        = e.offset + (e.write_header .Local).length + e.size ∧
      z.cursor ≤ (z.write_file fn c).1.cursor ∧
      (z.write_file fn c).1.writer.data
        = z.writer.data ++ e.write_header .Local ++ c.chunks.flatten ∧
      (z.write_file fn c).1.writer.pos = (z.write_file fn c).1.cursor := by
  have hzw := write_file_ok z fn c herr hne
  have hzd := write_file_data z fn c herr hne hpos hcur
  refine ⟨committedEntry z fn c, ?_, ?_, rfl, rfl, rfl, rfl, ?_, ?_, ?_, ?_, ?_⟩
  · rw [hzw]
  · rw [hzw]
  · simp [length_write_header_Local, committedEntry]
  · rw [hzw]
    simp [length_write_header_Local, committedEntry]
  · rw [hzw]
    dsimp only
    omega
  · rw [hzd]
  · rw [hzd, hzw]

/-- Claim C3: for every entry and both header kinds, the header serializer
writes exactly the field sequence the specification lists, with its
constants — local signature `50 4B 03 04` or directory signature
`50 4B 01 02`, zero flags, store method, zero time and date, the CRC-32, the
compressed and uncompressed size fields both carrying the entry's size, path
length, extra-field length, and for the directory kind additionally version
made by, zero comment length, zero disk number, the attribute constants and
the 32-bit offset — followed by the path bytes and the extra-field bytes.
The byte count the Rust method returns is, in this embedding, the length of
the returned sequence. -/
theorem write_header_matches_spec_layout (e : FileEntry) :
    e.write_header .Local = specLocalHeader e ∧
    e.write_header .Central = specCentralHeader e := by
  constructor <;>
    simp [FileEntry.write_header, specLocalHeader, specCentralHeader,
      FileHeader.signature, LOCAL_FILE_HEADER_SIGNATURE, CENTRAL_FILE_HEADER_SIGNATURE,
      VERSION_NEED_TO_EXTRACT_DEFAULT, GENERAL_PURPOSE_BIT_FLAG,
      COMPRESSION_METHOD_STORE, LENGTH_ZERO, INTERNAL_FILE_ATTRS, EXTERNAL_FILE_ATTRS,
      into_bytes_eq_specRecord, length_specRecord]

/-- Claim C4: the path-encoding field builder produces exactly the tag
`75 70`, the 2-byte little-endian record length `L + 5`, the version byte
`01`, the 4-byte little-endian ISO-HDLC CRC-32 of the path bytes, and the
raw path bytes — `L + 9` bytes in total; it is a pure function of the
path. -/
theorem into_bytes_matches_spec (p : List Nat) :
    Utf8PathField.into_bytes p = specUtf8PathRecord p ∧
    (Utf8PathField.into_bytes p).length = p.length + 9 :=
  ⟨rfl, length_into_bytes p⟩

/-- Claim C5: every read through the checksum accumulator returns exactly the
byte count and buffer the underlying source's read returns, feeds exactly
the first `len` returned bytes into the CRC-32 state (so the finalized sum
over any accumulated prefix is the ISO-HDLC CRC-32 of the bytes returned so
far), and propagates an underlying read error unchanged. -/
theorem crc32Reader_read_spec {σ ε : Type}
    (readFn : σ → List Nat → Except ε (Nat × List Nat × σ))
    (r : Crc32Reader σ) (buf fed : List Nat)
    (hd : r.digest = crc32Update 0xFFFFFFFF fed) :
    (∀ e : ε, readFn r.internal buf = .error e →
        Crc32Reader.read readFn r buf = .error e) ∧
    (∀ (len : Nat) (buf2 : List Nat) (s2 : σ),
        readFn r.internal buf = .ok (len, buf2, s2) →
        Crc32Reader.read readFn r buf
          = .ok (len, buf2,
              ⟨s2, crc32Update 0xFFFFFFFF (fed ++ buf2.take len)⟩) ∧
        Crc32Reader.sum32
            (⟨s2, crc32Update 0xFFFFFFFF (fed ++ buf2.take len)⟩ : Crc32Reader σ)
          = crc32 (fed ++ buf2.take len)) := by
  constructor
  · intro e he
    simp [Crc32Reader.read, he]
  · intro len buf2 s2 hok
    constructor
    · simp [Crc32Reader.read, hok, hd, crc32Update_append]
    · simp [Crc32Reader.sum32, crc32]

/-- Claim C6: when the content source fails with error `e` partway through
streaming, `write_file` returns exactly `e` and the writer's sequence of
committed entries is unchanged. -/
theorem write_file_error_no_entry {ε : Type} (z : ZipWriter) (fn : List Nat)
    (c : ContentSource ε) (e : ε)
    (herr : c.err = some e) (hne : ∀ ch ∈ c.chunks, ch ≠ []) :
    (z.write_file fn c).2 = some e ∧ (z.write_file fn c).1.files = z.files := by
  rw [write_file_err z fn c e herr hne]
  exact ⟨rfl, rfl⟩

/-- Claim C7: `close` writes one directory header per entry in insertion
order at the end of the written data, then the summary record: signature
`50 4B 05 06`, disk number 0, directory-disk number 1, the two 16-bit entry
counts, a 32-bit directory size equal to the directory bytes just written, a
32-bit directory starting offset holding the cursor value before the first
directory header (the end of the last entry's content), and a zero-length
comment. -/
theorem close_writes_directory_and_summary (z : ZipWriter)
    (hpos : z.writer.pos = z.writer.data.length) :
    z.close.data
      = z.writer.data
          ++ (z.files.map (fun f => f.write_header .Central)).flatten
          ++ ([0x50, 0x4b, 0x05, 0x06] ++ u16le 0 ++ u16le 1
              ++ u16le z.files.length ++ u16le z.files.length
              ++ u32le ((z.files.map (fun f => f.write_header .Central)).flatten).length
              ++ u32le z.cursor ++ u16le 0) := by
  rw [close_eq z hpos]
  simp [endRecord, centralDirectory, EOF_CENTRAL_FILE_HEADER_SIGNATURE, LENGTH_ZERO,
    u16le, List.append_assoc]

/-- Claim C8, counterexample: a local header patched with the final size and
checksum is not byte-for-byte identical to the directory header with the
directory-only fields removed, because the two kinds' 4-byte signatures
differ (`50 4B 03 04` against `50 4B 01 02`), shown here on the concrete
entry with offset 0, path byte `0x61`, size 5 and checksum 0. -/
theorem strip_central_not_local :
    ¬ stripCentralOnly ((FileEntry.mk 0 [0x61] 5 0).write_header .Central)
        = (FileEntry.mk 0 [0x61] 5 0).write_header .Local := by
  decide

/-- Claim C8, amended: apart from the 4-byte signature, which differs by
kind, and the extra directory-only fields, the directory header consists
byte-for-byte of the same bytes as the patched local header: the 26 shared
field bytes and the trailing path and extra-field bytes are taken verbatim
from the local header. -/
theorem central_header_shares_local_fields (e : FileEntry) :
    e.write_header .Central
      = CENTRAL_FILE_HEADER_SIGNATURE ++ VERSION_MADE_BY
          ++ ((e.write_header .Local).drop 4).take 26
          ++ (LENGTH_ZERO ++ LENGTH_ZERO ++ INTERNAL_FILE_ATTRS ++ EXTERNAL_FILE_ATTRS
              ++ u32le e.offset)
          ++ (e.write_header .Local).drop 30 := rfl

/-- Claim C9: for every number `n` of entries written before `close`,
including 0 and values beyond 65535, both 16-bit entry-count fields of the
summary record hold `n` truncated to 16 bits, and `close` is total — no
error is raised for the overflow; with zero entries the directory is empty
and the count fields are zero. -/
theorem close_count_truncates (z : ZipWriter)
    (hpos : z.writer.pos = z.writer.data.length) :
    (∃ dir : List Nat,
        z.close.data
          = z.writer.data ++ dir
              ++ ([0x50, 0x4b, 0x05, 0x06] ++ u16le 0 ++ u16le 1
                  ++ u16le (z.files.length % 2 ^ 16) ++ u16le (z.files.length % 2 ^ 16)
                  ++ u32le dir.length ++ u32le z.cursor ++ u16le 0)) ∧
    (z.files = [] →
        z.close.data
          = z.writer.data
              ++ ([0x50, 0x4b, 0x05, 0x06] ++ u16le 0 ++ u16le 1 ++ u16le 0 ++ u16le 0
                  ++ u32le 0 ++ u32le z.cursor ++ u16le 0)) := by
  constructor
  · refine ⟨centralDirectory z.files, ?_⟩
    rw [close_eq z hpos, ← u16le_mod]
    simp [endRecord, EOF_CENTRAL_FILE_HEADER_SIGNATURE, LENGTH_ZERO, u16le,
      List.append_assoc]
  · intro h
    rw [close_eq z hpos]
    simp [h, endRecord, centralDirectory, EOF_CENTRAL_FILE_HEADER_SIGNATURE, LENGTH_ZERO,
      u16le, u32le, List.append_assoc]

/-- Claim C10: a serialized header's byte length depends only on the header
kind and the filename's byte length — a local header is always
`30 + L + (L + 9)` bytes and a central one `46 + L + (L + 9)` — so the
backpatched local header written by `write_file` occupies exactly the byte
range of the zero-placeholder header it replaces and never overwrites a
content byte: the final sink is the patched header followed by the content
unchanged. -/
theorem header_length_depends_only_on_name (e e2 : FileEntry)
    (hfn : e.filename = e2.filename) :
    (e.write_header .Local).length = 30 + e.filename.length + (e.filename.length + 9) ∧
    (e.write_header .Central).length = 46 + e.filename.length + (e.filename.length + 9) ∧
    (∀ h : FileHeader, (e.write_header h).length = (e2.write_header h).length) ∧
    (∀ {ε : Type} (z : ZipWriter) (fn : List Nat) (c : ContentSource ε),
        c.err = none → (∀ ch ∈ c.chunks, ch ≠ []) →
        z.writer.pos = z.writer.data.length → z.cursor = z.writer.data.length →
        (z.write_file fn c).1.writer.data
          = z.writer.data ++ (committedEntry z fn c).write_header .Local
              ++ c.chunks.flatten) := by
  refine ⟨length_write_header_Local e, length_write_header_Central e, ?_, ?_⟩
  · intro h
    cases h
    · simp [length_write_header_Local, hfn]
    · simp [length_write_header_Central, hfn]
  · intro ε z fn c herr hne hpos hcur
    rw [write_file_data z fn c herr hne hpos hcur]

/-! ## Witnesses -/

/-- Witness for `write_file_records_crc`: a fresh writer, path byte `a`, and
content bytes `hi` delivered in one chunk. -/
theorem write_file_records_crc_witness :
    ((ContentSource.mk [[104, 105]] (none : Option Unit)).err = none
      ∧ (∀ ch ∈ (ContentSource.mk [[104, 105]] (none : Option Unit)).chunks, ch ≠ []))
    ∧ ∃ e : FileEntry,
        ((ZipWriter.new ⟨[], 0⟩).write_file [97]
            (ContentSource.mk [[104, 105]] (none : Option Unit))).1.files
          = (ZipWriter.new ⟨[], 0⟩).files ++ [e] ∧
        e.crc32 = crc32 (ContentSource.mk [[104, 105]] (none : Option Unit)).chunks.flatten ∧
        ((e.write_header .Local).drop 14).take 4
          = u32le (crc32 (ContentSource.mk [[104, 105]] (none : Option Unit)).chunks.flatten) ∧
        ((e.write_header .Central).drop 16).take 4
          = u32le (crc32 (ContentSource.mk [[104, 105]] (none : Option Unit)).chunks.flatten) :=
  ⟨⟨rfl, by decide⟩,
    write_file_records_crc (ZipWriter.new ⟨[], 0⟩) [97]
      (ContentSource.mk [[104, 105]] none) rfl (by decide)⟩

/-- Witness for `write_file_steps`: a fresh writer, path byte `a`, and one
content byte delivered in one chunk. -/
theorem write_file_steps_witness :
    ((ContentSource.mk [[104]] (none : Option Unit)).err = none
      ∧ (∀ ch ∈ (ContentSource.mk [[104]] (none : Option Unit)).chunks, ch ≠ [])
      ∧ (ZipWriter.new ⟨[], 0⟩).writer.pos = (ZipWriter.new ⟨[], 0⟩).writer.data.length
      ∧ (ZipWriter.new ⟨[], 0⟩).cursor = (ZipWriter.new ⟨[], 0⟩).writer.data.length)
    ∧ ∃ e : FileEntry,
        ((ZipWriter.new ⟨[], 0⟩).write_file [97]
            (ContentSource.mk [[104]] (none : Option Unit))).2 = none ∧
        ((ZipWriter.new ⟨[], 0⟩).write_file [97]
            (ContentSource.mk [[104]] (none : Option Unit))).1.files
          = (ZipWriter.new ⟨[], 0⟩).files ++ [e] ∧
        e.offset = (ZipWriter.new ⟨[], 0⟩).cursor ∧
        e.filename = [97] ∧
        e.size = (ContentSource.mk [[104]] (none : Option Unit)).chunks.flatten.length ∧
        e.crc32 = crc32 (ContentSource.mk [[104]] (none : Option Unit)).chunks.flatten ∧
        (e.write_header .Local).length
          = ((FileEntry.mk (ZipWriter.new ⟨[], 0⟩).cursor [97] 0 0).write_header
              .Local).length ∧
        ((ZipWriter.new ⟨[], 0⟩).write_file [97]
            (ContentSource.mk [[104]] (none : Option Unit))).1.cursor
          = e.offset + (e.write_header .Local).length + e.size ∧
        (ZipWriter.new ⟨[], 0⟩).cursor
          ≤ ((ZipWriter.new ⟨[], 0⟩).write_file [97]
              (ContentSource.mk [[104]] (none : Option Unit))).1.cursor ∧
        ((ZipWriter.new ⟨[], 0⟩).write_file [97]
            (ContentSource.mk [[104]] (none : Option Unit))).1.writer.data
          = (ZipWriter.new ⟨[], 0⟩).writer.data ++ e.write_header .Local
              ++ (ContentSource.mk [[104]] (none : Option Unit)).chunks.flatten ∧
        ((ZipWriter.new ⟨[], 0⟩).write_file [97]
            (ContentSource.mk [[104]] (none : Option Unit))).1.writer.pos
          = ((ZipWriter.new ⟨[], 0⟩).write_file [97]
              (ContentSource.mk [[104]] (none : Option Unit))).1.cursor :=
  ⟨⟨rfl, by decide, rfl, rfl⟩,
    write_file_steps (ZipWriter.new ⟨[], 0⟩) [97]
      (ContentSource.mk [[104]] none) rfl (by decide) rfl rfl⟩

/-- Witness for `crc32Reader_read_spec`: a fresh accumulator over a one-shot
source returning one byte of a two-byte buffer. -/
theorem crc32Reader_read_spec_witness :
    (Crc32Reader.new ()).digest = crc32Update 0xFFFFFFFF []
    ∧ ((∀ e : Unit,
          (fun (_ : Unit) (_ : List Nat) =>
              (Except.ok (1, [7, 9], ()) : Except Unit (Nat × List Nat × Unit)))
            (Crc32Reader.new ()).internal [0, 0] = .error e →
          Crc32Reader.read
              (fun (_ : Unit) (_ : List Nat) =>
                (Except.ok (1, [7, 9], ()) : Except Unit (Nat × List Nat × Unit)))
              (Crc32Reader.new ()) [0, 0] = .error e) ∧
        (∀ (len : Nat) (buf2 : List Nat) (s2 : Unit),
          (fun (_ : Unit) (_ : List Nat) =>
              (Except.ok (1, [7, 9], ()) : Except Unit (Nat × List Nat × Unit)))
            (Crc32Reader.new ()).internal [0, 0] = .ok (len, buf2, s2) →
          Crc32Reader.read
              (fun (_ : Unit) (_ : List Nat) =>
                (Except.ok (1, [7, 9], ()) : Except Unit (Nat × List Nat × Unit)))
              (Crc32Reader.new ()) [0, 0]
            = .ok (len, buf2,
                ⟨s2, crc32Update 0xFFFFFFFF ([] ++ buf2.take len)⟩) ∧
          Crc32Reader.sum32
              (⟨s2, crc32Update 0xFFFFFFFF ([] ++ buf2.take len)⟩ : Crc32Reader Unit)
            = crc32 ([] ++ buf2.take len))) :=
  ⟨rfl,
    crc32Reader_read_spec
      (fun (_ : Unit) (_ : List Nat) =>
        (Except.ok (1, [7, 9], ()) : Except Unit (Nat × List Nat × Unit)))
      (Crc32Reader.new ()) [0, 0] [] rfl⟩

/-- Witness for `write_file_error_no_entry`: a source that yields one chunk
and then fails. -/
theorem write_file_error_no_entry_witness :
    ((ContentSource.mk [[104]] (some ())).err = some ()
      ∧ (∀ ch ∈ (ContentSource.mk [[104]] (some ())).chunks, ch ≠ []))
    ∧ ((ZipWriter.new ⟨[], 0⟩).write_file [97] (ContentSource.mk [[104]] (some ()))).2
        = some ()
    ∧ ((ZipWriter.new ⟨[], 0⟩).write_file [97] (ContentSource.mk [[104]] (some ()))).1.files
        = (ZipWriter.new ⟨[], 0⟩).files :=
  ⟨⟨rfl, by decide⟩,
    write_file_error_no_entry (ZipWriter.new ⟨[], 0⟩) [97]
      (ContentSource.mk [[104]] (some ())) () rfl (by decide)⟩

/-- Witness for `close_writes_directory_and_summary`: a fresh writer. -/
theorem close_writes_directory_and_summary_witness :
    (ZipWriter.new ⟨[], 0⟩).writer.pos = (ZipWriter.new ⟨[], 0⟩).writer.data.length
    ∧ (ZipWriter.new ⟨[], 0⟩).close.data
        = (ZipWriter.new ⟨[], 0⟩).writer.data
            ++ ((ZipWriter.new ⟨[], 0⟩).files.map (fun f => f.write_header .Central)).flatten
            ++ ([0x50, 0x4b, 0x05, 0x06] ++ u16le 0 ++ u16le 1
                ++ u16le (ZipWriter.new ⟨[], 0⟩).files.length
                ++ u16le (ZipWriter.new ⟨[], 0⟩).files.length
                ++ u32le (((ZipWriter.new ⟨[], 0⟩).files.map
                    (fun f => f.write_header .Central)).flatten).length
                ++ u32le (ZipWriter.new ⟨[], 0⟩).cursor ++ u16le 0) :=
  ⟨rfl, close_writes_directory_and_summary (ZipWriter.new ⟨[], 0⟩) rfl⟩

/-- Witness for `close_count_truncates`: a writer holding 70000 committed
entries, more than fit in 16 bits. -/
theorem close_count_truncates_witness :
    (ZipWriter.mk ⟨[], 0⟩ (List.replicate 70000 (FileEntry.mk 0 [] 0 0)) 0).writer.pos
      = (ZipWriter.mk ⟨[], 0⟩ (List.replicate 70000 (FileEntry.mk 0 [] 0 0))
          0).writer.data.length
    ∧ ((∃ dir : List Nat,
          (ZipWriter.mk ⟨[], 0⟩ (List.replicate 70000 (FileEntry.mk 0 [] 0 0)) 0).close.data
            = (ZipWriter.mk ⟨[], 0⟩ (List.replicate 70000 (FileEntry.mk 0 [] 0 0))
                0).writer.data ++ dir
                ++ ([0x50, 0x4b, 0x05, 0x06] ++ u16le 0 ++ u16le 1
                    ++ u16le ((ZipWriter.mk ⟨[], 0⟩
                        (List.replicate 70000 (FileEntry.mk 0 [] 0 0)) 0).files.length % 2 ^ 16)
                    ++ u16le ((ZipWriter.mk ⟨[], 0⟩
                        (List.replicate 70000 (FileEntry.mk 0 [] 0 0)) 0).files.length % 2 ^ 16)
                    ++ u32le dir.length
                    ++ u32le (ZipWriter.mk ⟨[], 0⟩
                        (List.replicate 70000 (FileEntry.mk 0 [] 0 0)) 0).cursor
                    ++ u16le 0)) ∧
        ((ZipWriter.mk ⟨[], 0⟩ (List.replicate 70000 (FileEntry.mk 0 [] 0 0)) 0).files = [] →
          (ZipWriter.mk ⟨[], 0⟩ (List.replicate 70000 (FileEntry.mk 0 [] 0 0)) 0).close.data
            = (ZipWriter.mk ⟨[], 0⟩ (List.replicate 70000 (FileEntry.mk 0 [] 0 0))
                0).writer.data
                ++ ([0x50, 0x4b, 0x05, 0x06] ++ u16le 0 ++ u16le 1 ++ u16le 0 ++ u16le 0
                    ++ u32le 0
                    ++ u32le (ZipWriter.mk ⟨[], 0⟩
                        (List.replicate 70000 (FileEntry.mk 0 [] 0 0)) 0).cursor
                    ++ u16le 0))) :=
  ⟨rfl,
    close_count_truncates
      (ZipWriter.mk ⟨[], 0⟩ (List.replicate 70000 (FileEntry.mk 0 [] 0 0)) 0) rfl⟩

/-- Witness for `header_length_depends_only_on_name`: two entries sharing the
path byte `a` but differing in offset, size and checksum. -/
theorem header_length_depends_only_on_name_witness :
    (FileEntry.mk 0 [97] 5 6).filename = (FileEntry.mk 9 [97] 7 8).filename
    ∧ (((FileEntry.mk 0 [97] 5 6).write_header .Local).length
        = 30 + (FileEntry.mk 0 [97] 5 6).filename.length
            + ((FileEntry.mk 0 [97] 5 6).filename.length + 9) ∧
      ((FileEntry.mk 0 [97] 5 6).write_header .Central).length
        = 46 + (FileEntry.mk 0 [97] 5 6).filename.length
            + ((FileEntry.mk 0 [97] 5 6).filename.length + 9) ∧
      (∀ h : FileHeader,
          ((FileEntry.mk 0 [97] 5 6).write_header h).length
            = ((FileEntry.mk 9 [97] 7 8).write_header h).length) ∧
      (∀ {ε : Type} (z : ZipWriter) (fn : List Nat) (c : ContentSource ε),
          c.err = none → (∀ ch ∈ c.chunks, ch ≠ []) →
          z.writer.pos = z.writer.data.length → z.cursor = z.writer.data.length →
          (z.write_file fn c).1.writer.data
            = z.writer.data ++ (committedEntry z fn c).write_header .Local
                ++ c.chunks.flatten)) :=
  ⟨rfl,
    header_length_depends_only_on_name (FileEntry.mk 0 [97] 5 6) (FileEntry.mk 9 [97] 7 8)
      rfl⟩

end Zip


